import Mathlib

/-!
Verification of the provider-matching pipeline in `app.py`
(repository Optimizer).

The pipeline has four stages applied per request:
geo-filter (`find_providers_in_radius`), quality scoring
(`calculate_quality_score` / `quality_model`), cost model
(`calculate_payment` / `cost_model`) and ranking
(`rank_with_specialty_priority`), composed by the entry point
`find_providers_api`.

Modelling choices:
* Python floats are modelled as exact rationals (`ℚ`); decimal literals
  of the source such as `0.85` become the corresponding rationals.
* A field that may be absent from a record (`row.get(key, default)` in
  the source) is an `Option`; `Option.getD` mirrors `.get` with its
  default.
* pandas `round` rounds half to even (`roundHalfEven` below).
* The great-circle distance of `geopy` is a transcendental function of
  the coordinates; the geo stage is parameterised by an arbitrary
  distance function `dist`, and every theorem about it holds for all
  such functions.
* `DataFrame.sort_values` on several columns uses numpy's `lexsort`,
  which is a stable sort; it is modelled by a stable insertion sort
  with the same lexicographic comparator.
-/

/-- A provider record, as read from the providers dataset.  Fields the
pipeline reads with `row.get(key, default)` are `Option`s. -/
structure Provider where
  latitude : ℚ
  longitude : ℚ
  specialty : String
  experience_years : Option ℚ
  patient_rating : Option ℚ
  CMS_quality_score : Option ℚ
  risk_rate : Option ℚ
  certified : Option Bool
  background_check_passed : Option Bool
  telehealth_available : Option Bool
  wait_time_days : Option ℚ
  service_cost : Option ℚ
  deriving DecidableEq

/-- A member record, as read from the members dataset.  Fields the
pipeline reads with `member.get(key, default)` are `Option`s. -/
structure Member where
  member_id : String
  latitude : ℚ
  longitude : ℚ
  max_travel_distance_km : ℚ
  coverage_plan : Option String
  risk_level : Option String
  expected_wait_time_days : Option ℚ
  invested_amount : Option ℚ
  telehealth_preference : Bool
  primary_specialty_needed : String
  secondary_specialty_needed : String
  deriving DecidableEq

/-- A provider surviving the geo filter, annotated with the distance
columns added by `find_providers_in_radius`. -/
structure GeoProvider extends Provider where
  distance_km : ℚ
  distance_miles : ℚ
  drive_time_minutes : ℚ
  deriving DecidableEq

/-- A geo-filtered provider annotated with the columns added by
`quality_model`. -/
structure QualityProvider extends GeoProvider where
  telehealth_preference : Bool
  quality_score : ℚ
  benchmark_percent : ℤ
  deriving DecidableEq

/-- A quality-scored provider annotated with the columns added by
`cost_model`. -/
structure CostProvider extends QualityProvider where
  insurance_payment : ℚ
  member_share : ℚ
  deriving DecidableEq

/-- A cost-annotated provider with the `specialty_priority` column added
by `rank_with_specialty_priority`. -/
structure RankedProvider extends CostProvider where
  specialty_priority : ℕ
  deriving DecidableEq

/-! ## Rounding (pandas / numpy `round`: half to even) -/

/-- Round a rational to the nearest integer, ties to the even integer —
the rounding used by numpy and hence by pandas `Series.round`. -/
def roundHalfEven (x : ℚ) : ℤ :=
  let f : ℤ := ⌊x⌋
  if x - f < 1/2 then f
  else if 1/2 < x - f then f + 1
  else if Even f then f else f + 1

/-- `Series.round(1)`: round to one decimal place. -/
def round1 (x : ℚ) : ℚ := (roundHalfEven (10 * x) : ℚ) / 10

/-! ## Stage 1: geo filter (`find_providers_in_radius`) -/

/-- `find_providers_in_radius(member_lat, member_lon, providers_df,
max_distance_km)`: keep each provider whose distance from the member is
`≤ max_distance_km` and annotate it with `distance_km`,
`distance_miles` and `drive_time_minutes`.  The great-circle distance
computation of `geopy` is the parameter `dist` (member latitude,
member longitude, provider latitude, provider longitude). -/
def find_providers_in_radius (dist : ℚ → ℚ → ℚ → ℚ → ℚ)
    (member_lat member_lon : ℚ) (providers : List Provider)
    (max_distance_km : ℚ) : List GeoProvider :=
  providers.filterMap (fun p =>
    let dist_km := dist member_lat member_lon p.latitude p.longitude
    if dist_km ≤ max_distance_km then
      some { toProvider := p
             distance_km := dist_km
             distance_miles := dist_km * (621371/1000000)
             drive_time_minutes := dist_km / 50 * 60 }
    else none)

/-! ## Stage 2: quality scoring (`calculate_quality_score`, `quality_model`) -/

/-- `calculate_quality_score(row)`: the weighted composite on a 0–10
scale divided by the accumulated total weight, clamped to `[1, 5]`.
Each `row.get(key, default)` becomes `Option.getD`. -/
def calculate_quality_score (row : Provider) : ℚ :=
  let exp_score := min (row.experience_years.getD 0 / 40) 1 * 10
  let rating_score := row.patient_rating.getD 0 / 5 * 10
  let cms_score := row.CMS_quality_score.getD 0 / 5 * 10
  let risk_score := (1 - row.risk_rate.getD 0) * 10
  let cert_score := (if row.certified.getD false then (5 : ℚ) else 0) +
    (if row.background_check_passed.getD false then (5 : ℚ) else 0)
  let tele_score := if row.telehealth_available.getD false then (10 : ℚ) else 0
  let score := exp_score * (20/100) + rating_score * (20/100) +
    cms_score * (25/100) + risk_score * (15/100) +
    cert_score * (10/100) + tele_score * (10/100)
  let total_weight : ℚ := 20/100 + 20/100 + 25/100 + 15/100 + 10/100 + 10/100
  max 1 (min 5 (score / total_weight))

/-- `quality_model(selected_providers, member)`: attach the member's
telehealth preference, the quality score rounded to one decimal and
`benchmark_percent = round(2 * quality_score * 10)` to every record. -/
def quality_model (selected_providers : List GeoProvider) (member : Member) :
    List QualityProvider :=
  selected_providers.map (fun g =>
    let qs := round1 (calculate_quality_score g.toProvider)
    { toGeoProvider := g
      telehealth_preference := member.telehealth_preference
      quality_score := qs
      benchmark_percent := roundHalfEven (2 * qs * 10) })

/-! ## Stage 3: cost model (`calculate_payment`, `cost_model`) -/

/-- `coverage_map.get(plan, 0.6)`: the coverage-share table
`{PPO: 0.85, HMO: 0.75, EPO: 0.65}` with default `0.6`. -/
def coverage_map (plan : String) : ℚ :=
  if plan = "PPO" then 85/100
  else if plan = "HMO" then 75/100
  else if plan = "EPO" then 65/100
  else 6/10

/-- `visits_map.get(risk, 5)`: the visits table
`{Low: 2, Medium: 5, High: 10}` with default `5`. -/
def visits_map (risk : String) : ℚ :=
  if risk = "Low" then 2
  else if risk = "Medium" then 5
  else if risk = "High" then 10
  else 5

/-- `adj_cost` of `calculate_payment`:
`service_cost * (1 + 0.01 * experience_years)`. -/
def adj_cost (provider : Provider) : ℚ :=
  provider.service_cost.getD 0 * (1 + 1/100 * provider.experience_years.getD 0)

/-- `wait_penalty` of `calculate_payment`:
`1 + 0.01 * max(0, wait_time_days - member.get("expected_wait_time_days", 5))`.
Note the member's expected wait time defaults to `5`. -/
def wait_penalty (provider : Provider) (member : Member) : ℚ :=
  1 + 1/100 * max 0 (provider.wait_time_days.getD 0 -
    member.expected_wait_time_days.getD 5)

/-- `coverage_share` of `calculate_payment`:
`coverage_map.get(member.get("coverage_plan", "PPO"), 0.6)`.  Note an
absent plan defaults to the string `"PPO"` before the table lookup. -/
def coverage_share (member : Member) : ℚ :=
  coverage_map (member.coverage_plan.getD "PPO")

/-- `visits` of `calculate_payment`:
`visits_map.get(member.get("risk_level", "Medium"), 5)`. -/
def visits (member : Member) : ℚ :=
  visits_map (member.risk_level.getD "Medium")

/-- `calculate_payment(provider, member)`: returns the pair
`(payment, member_share)`. -/
def calculate_payment (provider : Provider) (member : Member) : ℚ × ℚ :=
  let base_payment := adj_cost provider * coverage_share member
  let member_share := 2/10 * member.invested_amount.getD 0
  let raw_payment := (base_payment - member_share) * visits member *
    wait_penalty provider member
  let min_payment := 2/10 * adj_cost provider * visits member
  (max raw_payment min_payment, member_share)

/-- `cost_model(quality_df, member)`: attach `insurance_payment` and
`member_share` to every record (the `provider_name` → `name` column
rename of the source is a column-label shim with no numeric content and
is not modelled). -/
def cost_model (quality_df : List QualityProvider) (member : Member) :
    List CostProvider :=
  quality_df.map (fun q =>
    { toQualityProvider := q
      insurance_payment := (calculate_payment q.toProvider member).1
      member_share := (calculate_payment q.toProvider member).2 })

/-! ## Stage 4: ranking (`rank_with_specialty_priority`) -/

/-- The inner `specialty_priority` function of
`rank_with_specialty_priority`: 1 for the member's primary specialty,
2 for the secondary, 3 otherwise. -/
def specialty_priority (primary secondary specialty : String) : ℕ :=
  if specialty = primary then 1
  else if specialty = secondary then 2
  else 3

/-- The `final_df["specialty_priority"] = ...` column assignment:
annotate one record with its specialty priority. -/
def addPriority (member : Member) (p : CostProvider) : RankedProvider :=
  { toCostProvider := p
    specialty_priority := specialty_priority member.primary_specialty_needed
      member.secondary_specialty_needed p.specialty }

/-- The four sort keys of the ranking, in order. -/
def sortKey (r : RankedProvider) : ℕ × ℚ × ℚ × ℚ :=
  (r.specialty_priority, r.quality_score, r.distance_miles, r.insurance_payment)

/-- The lexicographic comparator of
`sort_values(by=["specialty_priority", "quality_score",
"distance_miles", "insurance_payment"],
ascending=[True, False, True, True])`. -/
def rankLE (a b : RankedProvider) : Bool :=
  if a.specialty_priority = b.specialty_priority then
    if a.quality_score = b.quality_score then
      if a.distance_miles = b.distance_miles then
        decide (a.insurance_payment ≤ b.insurance_payment)
      else decide (a.distance_miles ≤ b.distance_miles)
    else decide (b.quality_score ≤ a.quality_score)
  else decide (a.specialty_priority ≤ b.specialty_priority)

/-- Insert an element into a list before the first entry it compares
`le` to (the insertion step of a stable insertion sort). -/
def orderedInsert (le : α → α → Bool) (a : α) : List α → List α
  | [] => [a]
  | b :: l => if le a b then a :: b :: l else b :: orderedInsert le a l

/-- Stable insertion sort.  `DataFrame.sort_values` on several columns
sorts with numpy's `lexsort`, a stable sort; any two stable sorts with
the same total comparator agree, so a stable insertion sort is a
faithful model. -/
def insertionSort (le : α → α → Bool) : List α → List α
  | [] => []
  | a :: l => orderedInsert le a (insertionSort le l)

/-- `rank_with_specialty_priority(final_df, member, top_n)`: annotate
with `specialty_priority`, sort stably by the composite key, truncate
to the first `top_n` rows (`DataFrame.head`). -/
def rank_with_specialty_priority (final_df : List CostProvider)
    (member : Member) (top_n : ℕ) : List RankedProvider :=
  (insertionSort rankLE (final_df.map (addPriority member))).take top_n

/-! ## Orchestrator (`find_providers_api`) -/

/-- The discriminated outcomes of the `/api/find-providers` endpoint:
HTTP 400 (missing member id), 500 (datasets unavailable), 404 (member
not found) and 200 with the providers payload and the member's
location. -/
inductive ApiResult where
  | validationError : ApiResult
  | dataUnavailable : ApiResult
  | memberNotFound : ApiResult
  | success (providers : List RankedProvider) (member_lat member_lon : ℚ) :
      ApiResult
  deriving DecidableEq

/-- `find_providers_api`: the pipeline entry point.  `request_member_id`
is `data.get('member_id')` (`none` when the key is absent); the Python
truthiness test `if not member_id` also rejects the empty string. -/
def find_providers_api (dist : ℚ → ℚ → ℚ → ℚ → ℚ)
    (members_df : List Member) (providers_df : List Provider)
    (request_member_id : Option String) : ApiResult :=
  match request_member_id with
  | none => .validationError
  | some id =>
    if id = "" then .validationError
    else if members_df.isEmpty ∨ providers_df.isEmpty then
      .dataUnavailable
    else
    match members_df.find? (fun m => m.member_id == id) with
    | none => .memberNotFound
    | some member =>
      let geo_df := find_providers_in_radius dist member.latitude
        member.longitude providers_df member.max_travel_distance_km
      if geo_df.isEmpty then
        .success [] member.latitude member.longitude
      else
        .success
          (rank_with_specialty_priority
            (cost_model (quality_model geo_df member) member) member 10)
          member.latitude member.longitude

/-! ## Auxiliary definitions used by the verification -/

/-- Adjacent-pair sortedness: no adjacent pair of the list violates the
comparator `le`. -/
def sortedAdj (le : α → α → Bool) : List α → Prop
  | [] => True
  | [_] => True
  | a :: b :: l => le a b = true ∧ sortedAdj le (b :: l)

/-- Replace every attribute the pipeline reads through
`row.get(key, default)` on the provider by its explicitly present
default (`some 0` / `some false`).  The robustness contract of the
pipeline is that this replacement does not change any computed value. -/
def fillDefaults (p : Provider) : Provider :=
  { p with
    experience_years := some (p.experience_years.getD 0)
    patient_rating := some (p.patient_rating.getD 0)
    CMS_quality_score := some (p.CMS_quality_score.getD 0)
    risk_rate := some (p.risk_rate.getD 0)
    certified := some (p.certified.getD false)
    background_check_passed := some (p.background_check_passed.getD false)
    telehealth_available := some (p.telehealth_available.getD false)
    wait_time_days := some (p.wait_time_days.getD 0)
    service_cost := some (p.service_cost.getD 0) }

/-- A provider record with every optional attribute absent. -/
def noneProvider : Provider :=
  { latitude := 0, longitude := 0, specialty := "Cardiology",
    experience_years := none, patient_rating := none, CMS_quality_score := none,
    risk_rate := none, certified := none, background_check_passed := none,
    telehealth_available := none, wait_time_days := none, service_cost := none }

/-- A member record with every optional attribute absent. -/
def noneMember : Member :=
  { member_id := "M1", latitude := 0, longitude := 0, max_travel_distance_km := 100,
    coverage_plan := none, risk_level := none, expected_wait_time_days := none,
    invested_amount := none, telehealth_preference := false,
    primary_specialty_needed := "Cardiology", secondary_specialty_needed := "Dermatology" }

/-- `noneProvider` with a concrete wait time and service cost. -/
def waitProvider : Provider :=
  { noneProvider with wait_time_days := some 10, service_cost := some 100 }

/-- `noneMember` with the telehealth preference set. -/
def trueMember : Member := { noneMember with telehealth_preference := true }

/-- `noneMember` with identical primary and secondary specialty needs. -/
def dupMember : Member := { noneMember with secondary_specialty_needed := "Cardiology" }

/-- `noneProvider` after the geo stage, at distance 0. -/
def geo0 : GeoProvider :=
  { toProvider := noneProvider, distance_km := 0, distance_miles := 0,
    drive_time_minutes := 0 }

/-- A concrete cost-annotated record over `geo0`. -/
def cost0 : CostProvider :=
  { toQualityProvider :=
      { toGeoProvider := geo0, telehealth_preference := false,
        quality_score := 3/2, benchmark_percent := 30 },
    insurance_payment := 0, member_share := 0 }

/-! ## Rounding lemmas -/

theorem roundHalfEven_ge (n : ℤ) (x : ℚ) (h : (n : ℚ) ≤ x) :
    n ≤ roundHalfEven x := by
  have hf : n ≤ ⌊x⌋ := Int.le_floor.mpr h
  simp only [roundHalfEven]
  split_ifs <;> omega

theorem roundHalfEven_le (n : ℤ) (x : ℚ) (h : x ≤ (n : ℚ)) :
    roundHalfEven x ≤ n := by
  have hf : ⌊x⌋ ≤ n := by
    have h2 := Int.floor_le_floor (α := ℚ) h
    simpa using h2
  have hfx : (⌊x⌋ : ℚ) ≤ x := Int.floor_le x
  simp only [roundHalfEven]
  split_ifs with h1 h2 h3
  · exact hf
  · rcases lt_or_eq_of_le hf with hlt | heq
    · omega
    · rw [heq] at h2
      linarith
  · exact hf
  · rcases lt_or_eq_of_le hf with hlt | heq
    · omega
    · rw [heq] at h1
      push_neg at h1
      linarith

theorem round1_bounds (x : ℚ) (h1 : 1 ≤ x) (h5 : x ≤ 5) :
    1 ≤ round1 x ∧ round1 x ≤ 5 := by
  have hg : (10 : ℤ) ≤ roundHalfEven (10 * x) :=
    roundHalfEven_ge 10 (10 * x) (by push_cast; linarith)
  have hl : roundHalfEven (10 * x) ≤ (50 : ℤ) :=
    roundHalfEven_le 50 (10 * x) (by push_cast; linarith)
  have hg' : (10 : ℚ) ≤ (roundHalfEven (10 * x) : ℚ) := by exact_mod_cast hg
  have hl' : ((roundHalfEven (10 * x) : ℚ)) ≤ 50 := by exact_mod_cast hl
  unfold round1
  constructor <;> [linarith; linarith]

theorem calculate_quality_score_bounds (row : Provider) :
    1 ≤ calculate_quality_score row ∧ calculate_quality_score row ≤ 5 := by
  simp only [calculate_quality_score]
  exact ⟨le_max_left _ _, max_le (by norm_num) (min_le_left _ _)⟩

/-! ## Claim C6: quality score bounds -/

/-- Claim C6: for every provider record, with any combination of
present, missing, zero or false attributes, the computed
`quality_score` lies in the closed interval `[1, 5]`, and it is the
clamped weighted composite rounded to one decimal place. -/
theorem quality_score_in_range (selected_providers : List GeoProvider)
    (member : Member) (q : QualityProvider)
    (hq : q ∈ quality_model selected_providers member) :
    q.quality_score = round1 (calculate_quality_score q.toProvider) ∧
    1 ≤ q.quality_score ∧ q.quality_score ≤ 5 := by
  simp only [quality_model, List.mem_map] at hq
  obtain ⟨g, hg, rfl⟩ := hq
  have hb := calculate_quality_score_bounds g.toProvider
  have hr := round1_bounds _ hb.1 hb.2
  exact ⟨rfl, hr.1, hr.2⟩

/-- Witness for C6 at a concrete scored record. -/
theorem quality_score_in_range_witness :
    1 ≤ round1 (calculate_quality_score noneProvider) ∧
    round1 (calculate_quality_score noneProvider) ≤ 5 := by
  have hq : (QualityProvider.mk geo0 noneMember.telehealth_preference
      (round1 (calculate_quality_score geo0.toProvider))
      (roundHalfEven (2 * round1 (calculate_quality_score geo0.toProvider) * 10)))
      ∈ quality_model [geo0] noneMember := by
    simp [quality_model]
  have h := quality_score_in_range [geo0] noneMember _ hq
  exact ⟨h.2.1, h.2.2⟩

/-! ## Claim C3: the all-absent / all-zero provider -/

/-- Counterexample to claim C3 as stated: the provider record with all
scoring attributes absent has quality score `1.5`, not `1`: the safety
component `(1 - risk_rate) * 10` contributes `10 * 0.15 = 1.5` when
`risk_rate` defaults to `0`. -/
theorem all_absent_quality_score_cex :
    noneProvider.experience_years = none ∧
    noneProvider.patient_rating = none ∧
    noneProvider.CMS_quality_score = none ∧
    noneProvider.risk_rate = none ∧
    noneProvider.certified = none ∧
    noneProvider.background_check_passed = none ∧
    noneProvider.telehealth_available = none ∧
    calculate_quality_score noneProvider = 3/2 ∧
    round1 (calculate_quality_score noneProvider) = 3/2 ∧
    ¬ round1 (calculate_quality_score noneProvider) = 1 := by
  have hs : calculate_quality_score noneProvider = 3/2 := by
    norm_num [calculate_quality_score, noneProvider]
  have hr : round1 ((3:ℚ)/2) = 3/2 := by
    norm_num [round1, roundHalfEven]
  refine ⟨rfl, rfl, rfl, rfl, rfl, rfl, rfl, hs, by rw [hs]; exact hr, ?_⟩
  rw [hs, hr]
  norm_num

/-- Claim C3 (amended): for every provider record whose scoring
attributes are all absent, zero or false, the computed quality score is
`1.5`, not the floor `1` — the score is `0` in every component except
safety, which contributes `(1 - 0) * 10 * 0.15 = 1.5`, and
`max(1, min(5, 1.5)) = 1.5` survives rounding to one decimal. -/
theorem all_absent_quality_score (row : Provider)
    (h1 : row.experience_years.getD 0 = 0)
    (h2 : row.patient_rating.getD 0 = 0)
    (h3 : row.CMS_quality_score.getD 0 = 0)
    (h4 : row.risk_rate.getD 0 = 0)
    (h5 : row.certified.getD false = false)
    (h6 : row.background_check_passed.getD false = false)
    (h7 : row.telehealth_available.getD false = false) :
    calculate_quality_score row = 3/2 ∧
    round1 (calculate_quality_score row) = 3/2 := by
  have hs : calculate_quality_score row = 3/2 := by
    simp only [calculate_quality_score, h1, h2, h3, h4, h5, h6, h7]
    norm_num
  refine ⟨hs, ?_⟩
  rw [hs]
  norm_num [round1, roundHalfEven]

/-- Witness for C3 (amended) at the all-absent provider. -/
theorem all_absent_quality_score_witness :
    calculate_quality_score noneProvider = 3/2 :=
  (all_absent_quality_score noneProvider rfl rfl rfl rfl rfl rfl rfl).1

/-! ## Claim C4: payment floor -/

theorem visits_map_ge_two (s : String) : (2 : ℚ) ≤ visits_map s := by
  unfold visits_map
  split_ifs <;> norm_num

/-- Claim C4: for every provider and member with nonnegative cost inputs
(`service_cost ≥ 0`, `experience_years ≥ 0`), the insurance payment is
at least the floor `0.2 * adjusted_cost * visits`, and in particular is
never negative — regardless of coverage plan, risk level, wait times or
the member's invested amount. -/
theorem insurance_payment_floor (provider : Provider) (member : Member)
    (hc : 0 ≤ provider.service_cost.getD 0)
    (he : 0 ≤ provider.experience_years.getD 0) :
    2/10 * adj_cost provider * visits member ≤
      (calculate_payment provider member).1 ∧
    0 ≤ (calculate_payment provider member).1 := by
  have hv : (2 : ℚ) ≤ visits member := visits_map_ge_two _
  have ha : 0 ≤ adj_cost provider := by
    unfold adj_cost
    apply mul_nonneg hc
    linarith
  have hfloor : 2/10 * adj_cost provider * visits member ≤
      (calculate_payment provider member).1 := by
    simp only [calculate_payment]
    exact le_max_right _ _
  refine ⟨hfloor, le_trans ?_ hfloor⟩
  have h1 : (0:ℚ) ≤ 2/10 * adj_cost provider := by linarith
  nlinarith

/-- Witness for C4 at a concrete provider and member. -/
theorem insurance_payment_floor_witness :
    0 ≤ (calculate_payment waitProvider noneMember).1 :=
  (insurance_payment_floor waitProvider noneMember
    (by norm_num [waitProvider, noneProvider])
    (by norm_num [waitProvider, noneProvider])).2

/-! ## Claim C2: defaults for absent fields -/

/-- Counterexample to claim C2 as stated: an absent `coverage_plan`
yields coverage share `0.85` (the `member.get("coverage_plan", "PPO")`
default selects the PPO row of the table), not the claimed `0.6`; and
an absent `member.expected_wait_time_days` defaults to `5` days
(`member.get("expected_wait_time_days", 5)`), so for a provider with
wait time 10 the penalty is `1 + 0.01 * max(0, 10 - 5) = 1.05`, not the
`1 + 0.01 * 10 = 1.10` that treating the absent field as `0` would
give. -/
theorem missing_field_defaults_cex :
    noneMember.coverage_plan = none ∧
    coverage_share noneMember = 85/100 ∧
    ¬ coverage_share noneMember = 6/10 ∧
    noneMember.expected_wait_time_days = none ∧
    waitProvider.wait_time_days = some 10 ∧
    wait_penalty waitProvider noneMember = 105/100 ∧
    ¬ wait_penalty waitProvider noneMember = 110/100 := by
  have hc : coverage_share noneMember = 85/100 := by
    norm_num [coverage_share, noneMember, coverage_map]
  have hw : wait_penalty waitProvider noneMember = 105/100 := by
    norm_num [wait_penalty, waitProvider, noneProvider, noneMember]
  refine ⟨rfl, hc, ?_, rfl, rfl, hw, ?_⟩
  · rw [hc]; norm_num
  · rw [hw]; norm_num

/-- Claim C2 (amended): scoring and pricing never fail on absent
fields.  Every missing numeric or boolean provider attribute is treated
as `0` (or `false`): replacing the absent attributes by explicitly
present defaults changes neither the quality score nor the payment.  An
absent `member.expected_wait_time_days` is treated as `5` days; a
`coverage_plan` value outside {PPO, HMO, EPO} yields coverage share
`0.6`, while an absent `coverage_plan` defaults to the plan string
`"PPO"` and hence share `0.85`; a `risk_level` outside
{Low, Medium, High} yields 5 visits, and an absent `risk_level`
defaults to `"Medium"`, which also yields 5 visits. -/
theorem missing_field_defaults (provider : Provider) (member : Member)
    (plan risk : String) :
    calculate_quality_score (fillDefaults provider) =
      calculate_quality_score provider ∧
    calculate_payment (fillDefaults provider) member =
      calculate_payment provider member ∧
    (member.coverage_plan = none → coverage_share member = 85/100) ∧
    (plan ≠ "PPO" → plan ≠ "HMO" → plan ≠ "EPO" → coverage_map plan = 6/10) ∧
    (member.risk_level = none → visits member = 5) ∧
    (risk ≠ "Low" → risk ≠ "Medium" → risk ≠ "High" → visits_map risk = 5) ∧
    (member.expected_wait_time_days = none →
      wait_penalty provider member =
        1 + 1/100 * max 0 (provider.wait_time_days.getD 0 - 5)) := by
  refine ⟨?_, ?_, ?_, ?_, ?_, ?_, ?_⟩
  · simp [calculate_quality_score, fillDefaults]
  · simp [calculate_payment, adj_cost, wait_penalty, fillDefaults]
  · intro h
    simp [coverage_share, h, coverage_map]
  · intro hp hh he
    simp [coverage_map, hp, hh, he]
  · intro h
    simp [visits, h, visits_map]
  · intro hl hm hh
    simp [visits_map, hl, hm, hh]
  · intro h
    simp [wait_penalty, h]

/-- Witness for C2 (amended) at concrete records and unknown plan and
risk strings. -/
theorem missing_field_defaults_witness :
    coverage_share noneMember = 85/100 ∧
    coverage_map "POS" = 6/10 ∧
    visits noneMember = 5 ∧
    visits_map "Unknown" = 5 ∧
    wait_penalty waitProvider noneMember =
      1 + 1/100 * max 0 (waitProvider.wait_time_days.getD 0 - 5) := by
  have h := missing_field_defaults waitProvider noneMember "POS" "Unknown"
  exact ⟨h.2.2.1 rfl, h.2.2.2.1 (by decide) (by decide) (by decide),
    h.2.2.2.2.1 rfl, h.2.2.2.2.2.1 (by decide) (by decide) (by decide),
    h.2.2.2.2.2.2 rfl⟩

/-! ## Claim C8: telehealth preference does not affect scoring -/

/-- Claim C8: the member's `telehealth_preference` does not affect
scoring — two runs of `quality_model` on the same provider list with
members differing only in `telehealth_preference` produce the same
`quality_score` and `benchmark_percent` for every provider. -/
theorem telehealth_preference_no_score_effect (selected : List GeoProvider)
    (m1 m2 : Member)
    (h : m2 = { m1 with telehealth_preference := m2.telehealth_preference }) :
    (quality_model selected m1).map (fun q => (q.quality_score, q.benchmark_percent)) =
    (quality_model selected m2).map (fun q => (q.quality_score, q.benchmark_percent)) := by
  simp [quality_model, List.map_map]

/-- Witness for C8: two concrete members differing only in the
telehealth preference. -/
theorem telehealth_preference_no_score_effect_witness :
    (quality_model [geo0] noneMember).map
      (fun q => (q.quality_score, q.benchmark_percent)) =
    (quality_model [geo0] trueMember).map
      (fun q => (q.quality_score, q.benchmark_percent)) :=
  telehealth_preference_no_score_effect [geo0] noneMember trueMember rfl

/-! ## Claim C10: specialty priority -/

/-- Claim C10: the primary-specialty check takes precedence in the
ranker — when the member's primary and secondary specialty needs
coincide, a provider of that specialty receives priority 1, never 2 —
and the priority is always one of 1, 2, 3. -/
theorem specialty_priority_rules (member : Member) (p : CostProvider) :
    (member.primary_specialty_needed = member.secondary_specialty_needed →
      p.specialty = member.primary_specialty_needed →
      (addPriority member p).specialty_priority = 1) ∧
    ((addPriority member p).specialty_priority = 1 ∨
     (addPriority member p).specialty_priority = 2 ∨
     (addPriority member p).specialty_priority = 3) := by
  constructor
  · intro _ hs
    simp [addPriority, specialty_priority, hs]
  · simp only [addPriority, specialty_priority]
    split_ifs <;> simp

/-- Witness for C10: a member whose primary and secondary needs are both
"Cardiology" and a provider of that specialty. -/
theorem specialty_priority_rules_witness :
    (addPriority dupMember cost0).specialty_priority = 1 :=
  (specialty_priority_rules dupMember cost0).1 rfl rfl

/-! ## Sorting lemmas for the ranker -/

theorem length_orderedInsert (le : α → α → Bool) (a : α) :
    ∀ l : List α, (orderedInsert le a l).length = l.length + 1 := by
  intro l
  induction l with
  | nil => rfl
  | cons b l ih =>
    simp only [orderedInsert]
    split_ifs
    · simp
    · simp [ih]

theorem length_insertionSort (le : α → α → Bool) :
    ∀ l : List α, (insertionSort le l).length = l.length := by
  intro l
  induction l with
  | nil => rfl
  | cons a l ih => simp [insertionSort, length_orderedInsert, ih]

theorem sortedAdj_orderedInsert (le : α → α → Bool)
    (htot : ∀ a b, le a b = false → le b a = true) (a : α) :
    ∀ l : List α, sortedAdj le l → sortedAdj le (orderedInsert le a l) := by
  intro l
  induction l with
  | nil => intro _; trivial
  | cons b l ih =>
    intro h
    simp only [orderedInsert]
    by_cases hab : le a b = true
    · rw [if_pos hab]
      exact ⟨hab, h⟩
    · have hab' : le a b = false := by
        cases hle : le a b
        · rfl
        · exact absurd hle hab
      rw [if_neg hab]
      have hba : le b a = true := htot a b hab'
      cases l with
      | nil => exact ⟨hba, trivial⟩
      | cons c l' =>
        obtain ⟨hbc, h'⟩ := h
        have hins := ih h'
        simp only [orderedInsert] at hins ⊢
        by_cases hac : le a c = true
        · rw [if_pos hac] at hins ⊢
          exact ⟨hba, hins⟩
        · rw [if_neg hac] at hins ⊢
          exact ⟨hbc, hins⟩

theorem sortedAdj_insertionSort (le : α → α → Bool)
    (htot : ∀ a b, le a b = false → le b a = true) :
    ∀ l : List α, sortedAdj le (insertionSort le l) := by
  intro l
  induction l with
  | nil => trivial
  | cons a l ih => exact sortedAdj_orderedInsert le htot a _ ih

theorem sortedAdj_take (le : α → α → Bool) :
    ∀ l : List α, sortedAdj le l → ∀ n : ℕ, sortedAdj le (l.take n) := by
  intro l
  induction l with
  | nil =>
    intro _ n
    cases n <;> trivial
  | cons a l ih =>
    intro h n
    cases n with
    | zero => trivial
    | succ m =>
      cases l with
      | nil => cases m <;> trivial
      | cons b l' =>
        obtain ⟨hab, h'⟩ := h
        cases m with
        | zero => trivial
        | succ k => exact ⟨hab, ih h' (k + 1)⟩

theorem rankLE_total (a b : RankedProvider) (h : rankLE a b = false) :
    rankLE b a = true := by
  simp only [rankLE] at h ⊢
  by_cases h1 : a.specialty_priority = b.specialty_priority
  · rw [if_pos h1] at h
    rw [if_pos h1.symm]
    by_cases h2 : a.quality_score = b.quality_score
    · rw [if_pos h2] at h
      rw [if_pos h2.symm]
      by_cases h3 : a.distance_miles = b.distance_miles
      · rw [if_pos h3] at h
        rw [if_pos h3.symm]
        simp only [decide_eq_false_iff_not] at h
        simp only [decide_eq_true_eq]
        exact le_of_not_le h
      · rw [if_neg h3] at h
        rw [if_neg (fun hh => h3 hh.symm)]
        simp only [decide_eq_false_iff_not] at h
        simp only [decide_eq_true_eq]
        exact le_of_not_le h
    · rw [if_neg h2] at h
      rw [if_neg (fun hh => h2 hh.symm)]
      simp only [decide_eq_false_iff_not] at h
      simp only [decide_eq_true_eq]
      exact le_of_not_le h
  · rw [if_neg h1] at h
    rw [if_neg (fun hh => h1 hh.symm)]
    simp only [decide_eq_false_iff_not] at h
    simp only [decide_eq_true_eq]
    exact le_of_not_le h

theorem rankLE_of_sortKey_eq (a b : RankedProvider) (h : sortKey a = sortKey b) :
    rankLE a b = true := by
  simp only [sortKey, Prod.mk.injEq] at h
  obtain ⟨h1, h2, h3, h4⟩ := h
  simp [rankLE, h1, h2, h3, h4]

theorem filter_orderedInsert_ne {κ : Type} [DecidableEq κ] (le : α → α → Bool)
    (key : α → κ) (a : α) (k : κ) (hk : ¬ key a = k) :
    ∀ l : List α,
      (orderedInsert le a l).filter (fun x => decide (key x = k)) =
        l.filter (fun x => decide (key x = k)) := by
  intro l
  induction l with
  | nil => simp [orderedInsert, hk]
  | cons b l ih =>
    simp only [orderedInsert]
    split_ifs
    · simp [List.filter_cons, hk]
    · simp only [List.filter_cons]
      rw [ih]

theorem filter_orderedInsert_eq {κ : Type} [DecidableEq κ] (le : α → α → Bool)
    (key : α → κ) (htie : ∀ x y, key x = key y → le x y = true) (a : α) :
    ∀ l : List α,
      (orderedInsert le a l).filter (fun x => decide (key x = key a)) =
        a :: l.filter (fun x => decide (key x = key a)) := by
  intro l
  induction l with
  | nil => simp [orderedInsert]
  | cons b l ih =>
    simp only [orderedInsert]
    split_ifs with hab
    · simp [List.filter_cons]
    · have hkb : ¬ key b = key a := fun hb => hab (htie a b hb.symm)
      simp only [List.filter_cons, ih]
      simp [hkb]

theorem filter_insertionSort {κ : Type} [DecidableEq κ] (le : α → α → Bool)
    (key : α → κ) (htie : ∀ x y, key x = key y → le x y = true) (k : κ) :
    ∀ l : List α,
      (insertionSort le l).filter (fun x => decide (key x = k)) =
        l.filter (fun x => decide (key x = k)) := by
  intro l
  induction l with
  | nil => rfl
  | cons a l ih =>
    simp only [insertionSort]
    by_cases hk : key a = k
    · subst hk
      rw [filter_orderedInsert_eq le key htie a (insertionSort le l)]
      rw [ih]
      simp [List.filter_cons]
    · rw [filter_orderedInsert_ne le key a k hk]
      rw [ih]
      simp [List.filter_cons, hk]

theorem filter_take_append (p : α → Bool) :
    ∀ (n : ℕ) (l : List α), ∃ t, l.filter p = (l.take n).filter p ++ t := by
  intro n l
  induction l generalizing n with
  | nil => exact ⟨[], by simp⟩
  | cons a l ih =>
    cases n with
    | zero => exact ⟨(a :: l).filter p, by simp⟩
    | succ m =>
      obtain ⟨t, ht⟩ := ih m
      refine ⟨t, ?_⟩
      simp only [List.take_succ_cons, List.filter_cons]
      split_ifs
      · simp [ht]
      · exact ht

/-! ## Claim C5: ranker output is sorted and has length `min top_n n` -/

/-- Claim C5: for every input list, member and `top_n`, the ranker's
output is sorted by the composite key `rankLE` (specialty priority
ascending, quality score descending, distance ascending, payment
ascending) — no adjacent pair violates this order — and the output
length equals `min top_n (input length)`. -/
theorem ranker_sorted_and_length (final_df : List CostProvider)
    (member : Member) (top_n : ℕ) :
    sortedAdj rankLE (rank_with_specialty_priority final_df member top_n) ∧
    (rank_with_specialty_priority final_df member top_n).length =
      min top_n final_df.length := by
  constructor
  · exact sortedAdj_take rankLE _
      (sortedAdj_insertionSort rankLE rankLE_total _) top_n
  · simp [rank_with_specialty_priority, List.length_take, length_insertionSort]

/-! ## Claim C1: the ranker's sort is stable -/

/-- Claim C1: the ranker's sort is stable.  For every input list,
member, truncation bound and value `k` of the four sort keys, the
output records whose keys equal `k` form an initial segment of the
input records whose keys equal `k`, in the same order — so any two
providers equal on all four sort keys that both survive truncation
appear in the output in the relative order they had in the input. -/
theorem ranker_sort_stable (final_df : List CostProvider) (member : Member)
    (top_n : ℕ) (k : ℕ × ℚ × ℚ × ℚ) :
    ∃ t, (final_df.map (addPriority member)).filter
        (fun r => decide (sortKey r = k)) =
      (rank_with_specialty_priority final_df member top_n).filter
        (fun r => decide (sortKey r = k)) ++ t := by
  obtain ⟨t, ht⟩ := filter_take_append (fun r => decide (sortKey r = k)) top_n
    (insertionSort rankLE (final_df.map (addPriority member)))
  rw [filter_insertionSort rankLE sortKey rankLE_of_sortKey_eq k
    (final_df.map (addPriority member))] at ht
  exact ⟨t, ht⟩

/-! ## Claim C7: the geo filter -/

/-- Claim C7: the geo filter keeps a provider iff its distance from the
member is at most `max_distance_km` (inclusive boundary), and annotates
every kept provider with `distance_km`, `distance_miles =
distance_km * 0.621371` and `drive_time_minutes = (distance_km / 50) *
60 = distance_km * 1.2`.  The great-circle distance function is the
parameter `dist`. -/
theorem geo_filter_membership (dist : ℚ → ℚ → ℚ → ℚ → ℚ)
    (member_lat member_lon max_distance_km : ℚ) (providers : List Provider)
    (g : GeoProvider) (p : Provider) :
    (g ∈ find_providers_in_radius dist member_lat member_lon providers
        max_distance_km ↔
      ∃ q ∈ providers,
        dist member_lat member_lon q.latitude q.longitude ≤ max_distance_km ∧
        g = { toProvider := q,
              distance_km := dist member_lat member_lon q.latitude q.longitude,
              distance_miles :=
                dist member_lat member_lon q.latitude q.longitude * (621371/1000000),
              drive_time_minutes :=
                dist member_lat member_lon q.latitude q.longitude / 50 * 60 }) ∧
    (g ∈ find_providers_in_radius dist member_lat member_lon providers
        max_distance_km →
      g.distance_km ≤ max_distance_km ∧
      g.distance_miles = g.distance_km * (621371/1000000) ∧
      g.drive_time_minutes = g.distance_km / 50 * 60 ∧
      g.drive_time_minutes = g.distance_km * (12/10)) ∧
    (p ∈ providers →
      dist member_lat member_lon p.latitude p.longitude ≤ max_distance_km →
      ({ toProvider := p,
         distance_km := dist member_lat member_lon p.latitude p.longitude,
         distance_miles :=
           dist member_lat member_lon p.latitude p.longitude * (621371/1000000),
         drive_time_minutes :=
           dist member_lat member_lon p.latitude p.longitude / 50 * 60 } :
        GeoProvider) ∈
        find_providers_in_radius dist member_lat member_lon providers
          max_distance_km) := by
  have hmem : ∀ x : GeoProvider,
      x ∈ find_providers_in_radius dist member_lat member_lon providers
        max_distance_km ↔
      ∃ q ∈ providers,
        dist member_lat member_lon q.latitude q.longitude ≤ max_distance_km ∧
        x = { toProvider := q,
              distance_km := dist member_lat member_lon q.latitude q.longitude,
              distance_miles :=
                dist member_lat member_lon q.latitude q.longitude * (621371/1000000),
              drive_time_minutes :=
                dist member_lat member_lon q.latitude q.longitude / 50 * 60 } := by
    intro x
    simp only [find_providers_in_radius, List.mem_filterMap]
    constructor
    · rintro ⟨q, hq, hx⟩
      by_cases hd :
          dist member_lat member_lon q.latitude q.longitude ≤ max_distance_km
      · rw [if_pos hd] at hx
        exact ⟨q, hq, hd, (Option.some.inj hx).symm⟩
      · rw [if_neg hd] at hx
        cases hx
    · rintro ⟨q, hq, hd, rfl⟩
      exact ⟨q, hq, by rw [if_pos hd]⟩
  refine ⟨hmem g, ?_, ?_⟩
  · intro hg
    obtain ⟨q, _, hd, rfl⟩ := (hmem g).mp hg
    refine ⟨hd, rfl, rfl, ?_⟩
    show dist member_lat member_lon q.latitude q.longitude / 50 * 60 =
      dist member_lat member_lon q.latitude q.longitude * (12/10)
    ring
  · intro hp hd
    exact (hmem _).mpr ⟨p, hp, hd, rfl⟩

/-- Witness for C7: a provider at distance 0 with limit 100 is kept,
with its annotations. -/
theorem geo_filter_membership_witness :
    ({ toProvider := noneProvider, distance_km := 0,
       distance_miles := 0 * (621371/1000000),
       drive_time_minutes := 0 / 50 * 60 } : GeoProvider) ∈
      find_providers_in_radius (fun _ _ _ _ => 0) 0 0 [noneProvider] 100 :=
  (geo_filter_membership (fun _ _ _ _ => 0) 0 0 100 [noneProvider]
    geo0 noneProvider).2.2 (List.mem_singleton_self noneProvider) (by norm_num)

/-! ## Claim C9: the pipeline entry point -/

/-- Claim C9: the entry point returns discriminated outcomes: a request
without a member id (or with the falsy empty id) yields a validation
failure; with an id but an empty member or provider dataset it yields
`dataUnavailable`; with nonempty datasets and an id not present in the
member dataset it yields `memberNotFound`; and when the member is found
but no provider is within the geo radius it short-circuits and returns
a success with an empty provider list paired with the member's
unmodified location. -/
theorem api_discriminated_outcomes (dist : ℚ → ℚ → ℚ → ℚ → ℚ)
    (members_df : List Member) (providers_df : List Provider)
    (id : String) (member : Member) :
    (find_providers_api dist members_df providers_df none =
      .validationError) ∧
    (find_providers_api dist members_df providers_df (some "") =
      .validationError) ∧
    (¬ id = "" → members_df = [] ∨ providers_df = [] →
      find_providers_api dist members_df providers_df (some id) =
        .dataUnavailable) ∧
    (¬ id = "" → ¬ members_df = [] → ¬ providers_df = [] →
      (∀ m ∈ members_df, ¬ m.member_id = id) →
      find_providers_api dist members_df providers_df (some id) =
        .memberNotFound) ∧
    (¬ id = "" → ¬ members_df = [] → ¬ providers_df = [] →
      members_df.find? (fun m => m.member_id == id) = some member →
      find_providers_in_radius dist member.latitude member.longitude
        providers_df member.max_travel_distance_km = [] →
      find_providers_api dist members_df providers_df (some id) =
        .success [] member.latitude member.longitude) := by
  refine ⟨rfl, rfl, ?_, ?_, ?_⟩
  · intro hid hempty
    simp only [find_providers_api]
    rw [if_neg hid, if_pos]
    rcases hempty with h | h <;> simp [h]
  · intro hid hm hp hnone
    have hfind : members_df.find? (fun m => m.member_id == id) = none := by
      rw [List.find?_eq_none]
      intro m hm'
      simpa using hnone m hm'
    simp only [find_providers_api]
    rw [if_neg hid, if_neg, hfind]
    simp [List.isEmpty_iff, hm, hp]
  · intro hid hm hp hfind hgeo
    simp only [find_providers_api]
    rw [if_neg hid, if_neg, hfind]
    · simp [hgeo]
    · simp [List.isEmpty_iff, hm, hp]

/-- Witness for C9: the four discriminated outcomes at concrete
requests, with a distance function putting every provider out of
radius. -/
theorem api_discriminated_outcomes_witness :
    find_providers_api (fun _ _ _ _ => 1000) [noneMember] [noneProvider] none =
      .validationError ∧
    find_providers_api (fun _ _ _ _ => 1000) [noneMember] [noneProvider]
      (some "") = .validationError ∧
    find_providers_api (fun _ _ _ _ => 1000) [] [noneProvider] (some "M2") =
      .dataUnavailable ∧
    find_providers_api (fun _ _ _ _ => 1000) [noneMember] [noneProvider]
      (some "M2") = .memberNotFound ∧
    find_providers_api (fun _ _ _ _ => 1000) [noneMember] [noneProvider]
      (some "M1") = .success [] noneMember.latitude noneMember.longitude := by
  refine ⟨?_, ?_, ?_, ?_, ?_⟩
  · exact (api_discriminated_outcomes (fun _ _ _ _ => 1000) [noneMember]
      [noneProvider] "x" noneMember).1
  · exact (api_discriminated_outcomes (fun _ _ _ _ => 1000) [noneMember]
      [noneProvider] "x" noneMember).2.1
  · exact (api_discriminated_outcomes (fun _ _ _ _ => 1000) [] [noneProvider]
      "M2" noneMember).2.2.1 (by decide) (Or.inl rfl)
  · exact (api_discriminated_outcomes (fun _ _ _ _ => 1000) [noneMember]
      [noneProvider] "M2" noneMember).2.2.2.1 (by decide) (by simp)
      (by simp) (by decide)
  · refine (api_discriminated_outcomes (fun _ _ _ _ => 1000) [noneMember]
      [noneProvider] "M1" noneMember).2.2.2.2 (by decide) (by simp)
      (by simp) rfl ?_
    norm_num [find_providers_in_radius, List.filterMap_cons, noneMember]
